import Mathlib

/-!
Shallow embedding of the duckup toolchain manager (`src/main.rs`).

Filesystem trees are modelled by `FTree`; network responses are supplied as
oracle values (a request that fails at the transport level, returns a
non-success HTTP status, or yields unparseable JSON is modelled by `none` /
a dedicated failure constructor).  Machine state relevant to each operation
is threaded explicitly.  All functions are computable so that concrete
executions can be evaluated.
-/

namespace Duckup

/-- Constant `BINARY_NAME` from `main.rs`. -/
def BINARY_NAME : String := "dargo"

/-- Constant `FALLBACK_GO_VERSION` from `main.rs`. -/
def FALLBACK_GO_VERSION : String := "1.25.0"

/-- A filesystem tree: a file with byte contents, or a directory with named
entries (in directory order). -/
inductive FTree where
  | file : String → FTree
  | dir : List (String × FTree) → FTree
deriving Repr

/-- A GitHub release asset (`struct Asset`): name and download URL. -/
structure Asset where
  name : String
  browser_download_url : String
deriving Repr, DecidableEq

/-- A GitHub release (`struct Release`): tag name and asset list. -/
structure Release where
  tag_name : String
  assets : List Asset
deriving Repr, DecidableEq

/-- Embedding of `struct DuckVersionInfo`: the parsed
`duck-version-info.json` manifest. -/
structure DuckVersionInfo where
  go : String
deriving Repr, DecidableEq

/-! ## PlatformIdentifier (`get_target_filename`, `download_go` lines 249-265) -/

/-- Embedding of `get_target_filename` (main.rs lines 564-582): maps the host
OS and architecture to the release asset filename, failing for any
combination outside the fixed table. -/
def get_target_filename (os arch : String) : Except String String :=
  match (match os with
         | "linux" => some os
         | "macos" => some os
         | "windows" => some os
         | _ => none) with
  | none => .error ("unsupported os: " ++ os)
  | some os_str =>
    match (match arch with
           | "x86_64" => some "x86_64"
           | "aarch64" => some "aarch64"
           | "arm" => some "armv7"
           | _ => none) with
    | none => .error ("unsupported architecture: " ++ arch)
    | some arch_str =>
      .ok ("dargo-" ++ os_str ++ "-" ++ arch_str ++
           (if os = "windows" then ".exe" else ""))

/-- Embedding of the platform-to-filename part of `download_go`
(main.rs lines 249-265): maps the host OS and architecture to the Go
bundle filename, failing outside the fixed table. -/
def go_bundle_filename (version os arch : String) : Except String String :=
  match (match os with
         | "macos" => some "darwin"
         | "linux" => some "linux"
         | "windows" => some "windows"
         | _ => none) with
  | none => .error ("unsupported os: " ++ os)
  | some os_str =>
    match (match arch with
           | "x86_64" => some "amd64"
           | "aarch64" => some "arm64"
           | "x86" => some "386"
           | "arm" => some "armv6l"
           | _ => none) with
    | none => .error ("unsupported architecture: " ++ arch)
    | some arch_str =>
      .ok ("go" ++ version ++ "." ++ os_str ++ "-" ++ arch_str ++ "." ++
           (if os_str = "windows" then "zip" else "tar.gz"))

/-! ## VersionResolver (`fetch_latest_tag`, main.rs lines 534-562) -/

/-- Outcome of the `GET releases/latest` query: transport failure,
non-success HTTP status, JSON parse failure, or a parsed release. -/
inductive LatestOutcome where
  | sendErr
  | httpFail
  | parseFail
  | ok : Release → LatestOutcome
deriving Repr, DecidableEq

/-- Outcome of the `GET releases?per_page=1` query: transport failure, JSON
parse failure, or a parsed release list (the code performs no HTTP status
check on this path). -/
inductive ListOutcome where
  | sendErr
  | parseFail
  | ok : List Release → ListOutcome
deriving Repr, DecidableEq

/-- Embedding of `fetch_latest_tag` (main.rs lines 534-562): try the
latest-release endpoint; on any failure there, fall back to the
limit-1 release listing and take its first entry's tag. -/
def fetch_latest_tag (latest : LatestOutcome) (listing : ListOutcome) :
    Except String String :=
  match latest with
  | .ok r => .ok r.tag_name
  | _ =>
    match listing with
    | .sendErr => .error "send failed"
    | .parseFail => .error "json parse failed"
    | .ok rs =>
      match rs with
      | [] => .error "No releases found"
      | r :: _ => .ok r.tag_name

/-! ## DependencyManifest (`get_go_version_from_disk`, main.rs lines 180-198) -/

/-- State of `duck-version-info.json` inside a cached source tree: missing,
present but unopenable, present but unparseable, or parsed. -/
inductive ManifestFile where
  | missing
  | unopenable
  | unparseable
  | parsed : DuckVersionInfo → ManifestFile
deriving Repr, DecidableEq

/-- Embedding of `get_go_version_from_disk` (main.rs lines 180-198): total;
returns the manifest's `go` field when it parses, otherwise the hard-coded
fallback version. -/
def get_go_version_from_disk (m : ManifestFile) : String :=
  match m with
  | .parsed info => info.go
  | _ => FALLBACK_GO_VERSION

/-! ## DependencyBootstrapper (`install_dependencies`, main.rs lines 142-178) -/

/-- A cached source tree: the state of its `duck-version-info.json` manifest
and its optional `std` subdirectory. -/
structure SourceTree where
  manifest : ManifestFile
  std : Option FTree

/-- The filesystem state `install_dependencies` reads and writes:
the per-tag source cache (`cache/source/{tag}`), the per-version Go bundle
cache (`cache/go/{version}`), and the global `~/.duck` staging directories
`go-compiler` and `std` (`none` = path absent). -/
structure DepState where
  sourceCache : String → Option SourceTree
  goCache : String → Option FTree
  globalGo : Option FTree
  globalStd : Option FTree

/-- Network oracle for bootstrapping: the result of `download_source` for a
tag and of `download_go` for a version (`none` = the download fails and the
cache directory is not created). -/
structure DepNet where
  source : String → Option SourceTree
  go : String → Option FTree

/-- Result of `install_dependencies`: error (if any), resulting filesystem
state, how many times `download_source` and `download_go` were invoked, and
whether the missing-`std` warning was printed. -/
structure DepResult where
  err : Option String
  state : DepState
  srcDownloads : Nat
  goDownloads : Nat
  warnedStd : Bool

/-- The source tree `install_dependencies net tag s` will operate on: the
cached tree if present, else whatever `download_source` would produce. -/
def sourceTreeFor (net : DepNet) (s : DepState) (tag : String) :
    Option SourceTree :=
  match s.sourceCache tag with
  | some t => some t
  | none => net.source tag

/-- Embedding of `install_dependencies` (main.rs lines 142-178):
(1) populate the source cache for `tag` if absent; (2) read the Go version
from the manifest; (3) populate the Go bundle cache for that version if
absent; (4) remove `~/.duck/go-compiler` if present and copy the cached
bundle there; (5) remove `~/.duck/std` if present, then copy the source
tree's `std` subdirectory there if it exists, else print a warning. -/
def install_dependencies (net : DepNet) (tag : String) (s : DepState) :
    DepResult :=
  match s.sourceCache tag with
  | some tree =>
    installDepsFromSource net s tree 0
  | none =>
    match net.source tag with
    | none => ⟨some "Failed to download source code", s, 1, 0, false⟩
    | some tree =>
      installDepsFromSource net
        { s with sourceCache := fun k => if k = tag then some tree else s.sourceCache k }
        tree 1
where
  /-- Steps (2)-(5) above, with the source tree in hand. -/
  installDepsFromSource (net : DepNet) (s1 : DepState)
      (tree : SourceTree) (nSrc : Nat) : DepResult :=
    match s1.goCache (get_go_version_from_disk tree.manifest) with
    | some g => stageGlobals s1 tree g nSrc 0
    | none =>
      match net.go (get_go_version_from_disk tree.manifest) with
      | none => ⟨some "Failed to download Go", s1, nSrc, 1, false⟩
      | some g =>
        stageGlobals
          { s1 with goCache := fun k =>
              if k = get_go_version_from_disk tree.manifest then some g
              else s1.goCache k }
          tree g nSrc 1
  /-- Steps (4)-(5): replace `~/.duck/go-compiler` with the cached bundle;
  remove `~/.duck/std`, then restage it only when the source tree has a
  `std` subdirectory. -/
  stageGlobals (s2 : DepState) (tree : SourceTree) (g : FTree)
      (nSrc nGo : Nat) : DepResult :=
    let s3 := { s2 with globalGo := some g }
    match tree.std with
    | some st => ⟨none, { s3 with globalStd := some st }, nSrc, nGo, false⟩
    | none => ⟨none, { s3 with globalStd := none }, nSrc, nGo, true⟩

/-! ## Installer (`install_version`, main.rs lines 315-384) -/

/-- A per-tag install directory: the bytes of `toolchains/{tag}/dargo` and
whether its executable bits are set. -/
structure InstalledDir where
  binary : String
  exec : Bool

/-- The toolchain store: per-tag install directory contents
(`none` = no directory for that tag). -/
structure InstState where
  dirs : String → Option InstalledDir

/-- Network oracle for `install_version`: the release-metadata response for
a tag (`none` = transport failure or non-success status) and the body served
for a download URL (`none` = transport failure). -/
structure InstNet where
  release : String → Option Release
  download : String → Option String

/-- Result of `install_version`: error (if any), resulting store, and the
number of HTTP requests issued. -/
structure InstResult where
  err : Option String
  state : InstState
  requests : Nat

/-- Embedding of `install_version` (main.rs lines 315-384): no-op when the
per-tag directory exists; else resolve the platform filename, fetch the
release metadata, find the matching asset, download it into a fresh per-tag
directory and set the executable bits. -/
def install_version (net : InstNet) (os arch : String) (tag : String)
    (s : InstState) : InstResult :=
  match s.dirs tag with
  | some _ => ⟨none, s, 0⟩
  | none =>
    match get_target_filename os arch with
    | .error e => ⟨some e, s, 0⟩
    | .ok target_filename =>
      match net.release tag with
      | none => ⟨some ("release " ++ tag ++ " not found on github."), s, 1⟩
      | some release =>
        match release.assets.find? (fun a => a.name == target_filename) with
        | none =>
          ⟨some ("could not find binary " ++ target_filename ++
                 " in release " ++ tag), s, 1⟩
        | some asset =>
          match net.download asset.browser_download_url with
          | none => ⟨some "download failed", s, 2⟩
          | some content =>
            ⟨none,
             ⟨fun k => if k = tag then some ⟨content, true⟩ else s.dirs k⟩,
             2⟩

/-! ## ActiveLinkManager and Lister
(`set_active` lines 386-412, `list_installed` lines 414-458; the `cfg(unix)`
inode-comparison branch is the one embedded) -/

/-- The state `set_active` / `list_installed` operate on: the toolchain
store as a list of directory entries `(tag, inode of toolchains/{tag}/dargo)`
(`none` = the binary file is absent from that tag's directory), and the
inode of `{binDir}/dargo` (`none` = no active link). -/
structure LinkState where
  toolchains : List (String × Option Nat)
  binLink : Option Nat
deriving Repr, DecidableEq

/-- Lookup of a tag's directory entry in the store (directory names are
unique, so the first match is the entry). -/
def lookupTag : List (String × Option Nat) → String → Option (Option Nat)
  | [], _ => none
  | (t, b) :: rest, tag => if t = tag then some b else lookupTag rest tag

/-- Embedding of `set_active` (main.rs lines 386-412): fail if
`toolchains/{tag}/dargo` does not exist; otherwise remove any existing link
and hard-link the binary into the bin directory, falling back to a plain
copy when hard-linking fails.  `linkOk` says whether `fs::hard_link`
succeeds; `fresh` is the inode the OS assigns to the file a fallback
`fs::copy` creates (a new file, so a new inode). -/
def set_active (tag : String) (linkOk : Bool) (fresh : Nat)
    (s : LinkState) : Option String × LinkState :=
  match (lookupTag s.toolchains tag).bind id with
  | none => (some ("Version " ++ tag ++ " is not installed."), s)
  | some ino =>
    (none, { s with binLink := some (if linkOk then ino else fresh) })

/-- The `cfg(unix)` active test in `list_installed`: an entry is active when
the bin link exists, the entry's binary exists, and their inodes coincide. -/
def isActiveEntry (blink : Option Nat) (entry : Option Nat) : Bool :=
  match blink, entry with
  | some b, some e => b == e
  | _, _ => false

/-- Embedding of `list_installed` (main.rs lines 414-458): one `(tag,
isActive)` pair per store entry, with activity decided by inode comparison
against the bin link. -/
def list_installed (s : LinkState) : List (String × Bool) :=
  s.toolchains.map (fun p => (p.1, isActiveEntry s.binLink p.2))

/-! ## The `use` subcommand (main.rs lines 95-98) -/

/-- Full state for the `use` subcommand: link-manager state plus
bootstrapping state. -/
structure World where
  link : LinkState
  deps : DepState

/-- Embedding of `Commands::Use` (main.rs lines 95-98): `set_active` runs
first; only if it succeeds does `install_dependencies` run, and its error
(if any) is what the process aborts with. -/
def useCommand (net : DepNet) (linkOk : Bool) (fresh : Nat) (tag : String)
    (w : World) : Option String × World :=
  match set_active tag linkOk fresh w.link with
  | (some e, _) => (some e, w)
  | (none, l1) =>
    let r := install_dependencies net tag w.deps
    (r.err, ⟨l1, r.state⟩)

/-! ## Cache population visibility
(`download_source` lines 200-244, `download_go` lines 246-298,
`copy_dir_recursive` lines 300-313) -/

/-- The visible states of a destination directory while
`copy_dir_recursive src dst` runs, at top-level granularity:
`fs::create_dir_all(dst)` first makes an empty directory visible, then each
top-level entry appears once its copy completes.  (States internal to one
entry's recursive copy are elided; every state listed here is genuinely
visible during the real execution.) -/
def copySnapshots : FTree → List FTree
  | .file c => [.file c]
  | .dir es => (List.range (es.length + 1)).map (fun k => .dir (es.take k))

/-- The states of the canonical cache path during the final install step of
`download_source` / `download_go` (lines 237-242 resp. 291-296): the path is
absent while the producer populates the scratch location; then either
`fs::rename` makes the whole tree visible in one step, or — when the rename
fails — `copy_dir_recursive` copies directly into the canonical path,
passing through the `copySnapshots` states. -/
def destStates (renameOk : Bool) (t : FTree) : List (Option FTree) :=
  none :: (if renameOk then [some t] else (copySnapshots t).map some)

/-- Test for an `.exe` suffix on the underlying character list (used to
state the windows-only `.exe` convention). -/
def hasExeSuffix (s : String) : Bool := ".exe".data.isSuffixOf s.data

/-!  # Theorems  -/

/-- C4: the platform-to-asset-filename mapping is a deterministic total
function over the two fixed OS/architecture tables — release host
`{linux,macos,windows} x {x86_64,aarch64,arm(->armv7)}` with `.exe` only on
windows, runtime host `{macos(->darwin),linux,windows} x
{x86_64(->amd64),aarch64(->arm64),x86(->386),arm(->armv6l)}` — and for every
pair outside the respective table it fails with an explicit
unsupported-platform error rather than substituting a default. -/
theorem platform_mapping_total_and_fails_closed (version os arch : String) :
    ((get_target_filename os arch).isOk = true ↔
      (os = "linux" ∨ os = "macos" ∨ os = "windows") ∧
      (arch = "x86_64" ∨ arch = "aarch64" ∨ arch = "arm")) ∧
    ((go_bundle_filename version os arch).isOk = true ↔
      (os = "macos" ∨ os = "linux" ∨ os = "windows") ∧
      (arch = "x86_64" ∨ arch = "aarch64" ∨ arch = "x86" ∨ arch = "arm")) ∧
    (∀ s, get_target_filename os arch = .ok s →
      (hasExeSuffix s = true ↔ os = "windows")) := by
  refine ⟨?_, ?_, ?_⟩
  · by_cases h1 : os = "linux" <;> by_cases h2 : os = "macos" <;>
      by_cases h3 : os = "windows" <;> by_cases a1 : arch = "x86_64" <;>
      by_cases a2 : arch = "aarch64" <;> by_cases a3 : arch = "arm" <;>
      simp_all [get_target_filename, Except.isOk, Except.toBool]
  · by_cases h1 : os = "macos" <;> by_cases h2 : os = "linux" <;>
      by_cases h3 : os = "windows" <;> by_cases a1 : arch = "x86_64" <;>
      by_cases a2 : arch = "aarch64" <;> by_cases a3 : arch = "x86" <;>
      by_cases a4 : arch = "arm" <;>
      simp_all [go_bundle_filename, Except.isOk, Except.toBool]
  · intro s hs
    by_cases h1 : os = "linux" <;> by_cases h2 : os = "macos" <;>
      by_cases h3 : os = "windows" <;> by_cases a1 : arch = "x86_64" <;>
      by_cases a2 : arch = "aarch64" <;> by_cases a3 : arch = "arm" <;>
      simp_all [get_target_filename]
    all_goals subst hs
    all_goals decide

/-- Witness for C4 at concrete platforms: linux/x86_64 is in both tables
(and carries no `.exe`), windows/x86_64 carries `.exe`, and freebsd/riscv is
rejected by both mappings. -/
theorem platform_mapping_total_and_fails_closed_witness :
    (get_target_filename "linux" "x86_64").isOk = true ∧
    (go_bundle_filename "1.25.0" "linux" "x86_64").isOk = true ∧
    (get_target_filename "freebsd" "riscv").isOk ≠ true ∧
    (∀ s, get_target_filename "linux" "x86_64" = .ok s →
      hasExeSuffix s ≠ true) ∧
    (∀ s, get_target_filename "windows" "x86_64" = .ok s →
      hasExeSuffix s = true) := by
  refine ⟨?_, ?_, ?_, ?_, ?_⟩
  · exact (platform_mapping_total_and_fails_closed "1.25.0" "linux" "x86_64").1.mpr
      ⟨Or.inl rfl, Or.inl rfl⟩
  · exact (platform_mapping_total_and_fails_closed "1.25.0" "linux" "x86_64").2.1.mpr
      ⟨Or.inr (Or.inl rfl), Or.inl rfl⟩
  · intro h
    have := (platform_mapping_total_and_fails_closed "1.25.0" "freebsd" "riscv").1.mp h
    simp at this
  · intro s hs h
    have := ((platform_mapping_total_and_fails_closed "1.25.0" "linux" "x86_64").2.2
      s hs).mp h
    simp at this
  · intro s hs
    exact ((platform_mapping_total_and_fails_closed "1.25.0" "windows" "x86_64").2.2
      s hs).mpr rfl

/-- C5: `fetch_latest_tag` first uses the latest-release endpoint; whenever
that query fails or returns no parseable result it uses the limit-1 release
listing and returns the first entry's tag; and it fails (with an error, not
an empty tag) exactly when the latest query is unusable and the listing
fails or is empty. -/
theorem fetch_latest_tag_fallback (latest : LatestOutcome)
    (listing : ListOutcome) :
    (∀ r, latest = .ok r →
      fetch_latest_tag latest listing = .ok r.tag_name) ∧
    ((∀ r, latest ≠ .ok r) → ∀ r rs, listing = .ok (r :: rs) →
      fetch_latest_tag latest listing = .ok r.tag_name) ∧
    ((fetch_latest_tag latest listing).isOk = false ↔
      (∀ r, latest ≠ .ok r) ∧
      (listing = .sendErr ∨ listing = .parseFail ∨ listing = .ok [])) := by
  refine ⟨?_, ?_, ?_⟩
  · rintro r rfl; rfl
  · rintro h r rs rfl
    cases latest with
    | ok r0 => exact absurd rfl (h r0)
    | sendErr => rfl
    | httpFail => rfl
    | parseFail => rfl
  · cases latest <;> cases listing <;>
      simp_all [fetch_latest_tag, Except.isOk, Except.toBool]
    all_goals rename_i rs; cases rs <;> simp

/-- Witness for C5: a usable latest response wins; with an unusable latest
response the listing's first tag is returned; with both unusable the result
is an error. -/
theorem fetch_latest_tag_fallback_witness :
    fetch_latest_tag (.ok ⟨"v1", []⟩) .sendErr = .ok "v1" ∧
    fetch_latest_tag .httpFail (.ok [⟨"v2", []⟩, ⟨"v1", []⟩]) = .ok "v2" ∧
    (fetch_latest_tag .parseFail (.ok [])).isOk = false := by
  refine ⟨?_, ?_, ?_⟩
  · exact (fetch_latest_tag_fallback (.ok ⟨"v1", []⟩) .sendErr).1 ⟨"v1", []⟩ rfl
  · exact (fetch_latest_tag_fallback .httpFail (.ok [⟨"v2", []⟩, ⟨"v1", []⟩])).2.1
      (by intro r h; cases h) ⟨"v2", []⟩ [⟨"v1", []⟩] rfl
  · exact (fetch_latest_tag_fallback .parseFail (.ok [])).2.2.mpr
      ⟨(by intro r h; cases h), Or.inr (Or.inr rfl)⟩

/-- C9: reading the dependency manifest is total and non-fatal: when the
manifest is missing, unopenable or unparseable the hard-coded fallback
runtime version "1.25.0" is returned; otherwise the version recorded in the
manifest is returned. -/
theorem manifest_read_total_with_fallback (m : ManifestFile) :
    (∀ info, m = .parsed info → get_go_version_from_disk m = info.go) ∧
    ((∀ info, m ≠ .parsed info) → get_go_version_from_disk m = "1.25.0") := by
  constructor
  · rintro info rfl; rfl
  · intro h
    cases m with
    | parsed info => exact absurd rfl (h info)
    | missing => rfl
    | unopenable => rfl
    | unparseable => rfl

/-- Witness for C9: a parsed manifest yields its recorded version; a missing
manifest yields the fallback. -/
theorem manifest_read_total_with_fallback_witness :
    get_go_version_from_disk (.parsed ⟨"1.24.1"⟩) = "1.24.1" ∧
    get_go_version_from_disk .missing = "1.25.0" :=
  ⟨(manifest_read_total_with_fallback (.parsed ⟨"1.24.1"⟩)).1 ⟨"1.24.1"⟩ rfl,
   (manifest_read_total_with_fallback .missing).2
     (by intro info h; cases h)⟩

/-! ### Unfolding lemmas for `install_dependencies` -/

/-- Source cache hit: the downloader is skipped. -/
lemma install_dependencies_src_hit (net : DepNet) (tag : String)
    (s : DepState) (tree : SourceTree) (h : s.sourceCache tag = some tree) :
    install_dependencies net tag s =
      install_dependencies.installDepsFromSource net s tree 0 := by
  unfold install_dependencies
  rw [h]

/-- Source cache miss with successful download: the cache is populated. -/
lemma install_dependencies_src_miss (net : DepNet) (tag : String)
    (s : DepState) (tree : SourceTree) (h : s.sourceCache tag = none)
    (hn : net.source tag = some tree) :
    install_dependencies net tag s =
      install_dependencies.installDepsFromSource net
        { s with sourceCache := fun k => if k = tag then some tree else s.sourceCache k }
        tree 1 := by
  unfold install_dependencies
  rw [h, hn]

/-- Source cache miss with failing download: the call aborts with the state
unchanged. -/
lemma install_dependencies_src_fail (net : DepNet) (tag : String)
    (s : DepState) (h : s.sourceCache tag = none)
    (hn : net.source tag = none) :
    install_dependencies net tag s =
      ⟨some "Failed to download source code", s, 1, 0, false⟩ := by
  unfold install_dependencies
  rw [h, hn]

/-- Go cache hit: the Go downloader is skipped. -/
lemma installDepsFromSource_go_hit (net : DepNet) (s1 : DepState)
    (tree : SourceTree) (nSrc : Nat) (g : FTree)
    (h : s1.goCache (get_go_version_from_disk tree.manifest) = some g) :
    install_dependencies.installDepsFromSource net s1 tree nSrc =
      install_dependencies.stageGlobals s1 tree g nSrc 0 := by
  unfold install_dependencies.installDepsFromSource
  rw [h]

/-- Go cache miss with successful download: the cache is populated. -/
lemma installDepsFromSource_go_miss (net : DepNet) (s1 : DepState)
    (tree : SourceTree) (nSrc : Nat) (g : FTree)
    (h : s1.goCache (get_go_version_from_disk tree.manifest) = none)
    (hn : net.go (get_go_version_from_disk tree.manifest) = some g) :
    install_dependencies.installDepsFromSource net s1 tree nSrc =
      install_dependencies.stageGlobals
        { s1 with goCache := fun k =>
            if k = get_go_version_from_disk tree.manifest then some g
            else s1.goCache k }
        tree g nSrc 1 := by
  unfold install_dependencies.installDepsFromSource
  rw [h, hn]

/-- The staging step never fails, reports the download counts it is handed,
keeps both caches, stages the Go bundle, and warns exactly when the source
tree has no `std` subdirectory. -/
lemma stageGlobals_spec (s2 : DepState) (tree : SourceTree) (g : FTree)
    (nSrc nGo : Nat) :
    (install_dependencies.stageGlobals s2 tree g nSrc nGo).err = none ∧
    (install_dependencies.stageGlobals s2 tree g nSrc nGo).srcDownloads = nSrc ∧
    (install_dependencies.stageGlobals s2 tree g nSrc nGo).goDownloads = nGo ∧
    (install_dependencies.stageGlobals s2 tree g nSrc nGo).state.sourceCache =
      s2.sourceCache ∧
    (install_dependencies.stageGlobals s2 tree g nSrc nGo).state.goCache =
      s2.goCache ∧
    (install_dependencies.stageGlobals s2 tree g nSrc nGo).state.globalGo =
      some g ∧
    (install_dependencies.stageGlobals s2 tree g nSrc nGo).state.globalStd =
      tree.std ∧
    ((install_dependencies.stageGlobals s2 tree g nSrc nGo).warnedStd = true ↔
      tree.std = none) := by
  unfold install_dependencies.stageGlobals
  cases h : tree.std <;> simp

/-! ### C6 -/

/-- C6: activating a tag whose binary is not present in the toolchain store
fails with a not-installed error and performs no filesystem mutation: the
returned state (store entries and active link included) is exactly the
input state. -/
theorem set_active_not_installed_no_mutation (tag : String) (linkOk : Bool)
    (fresh : Nat) (s : LinkState)
    (h : (lookupTag s.toolchains tag).bind id = none) :
    (set_active tag linkOk fresh s).1.isSome = true ∧
    (set_active tag linkOk fresh s).2 = s := by
  unfold set_active
  rw [h]
  exact ⟨rfl, rfl⟩

/-- Witness for C6: activating the uninstalled tag "v2" over a store that
only has "v1" errors out and leaves the state unchanged. -/
theorem set_active_not_installed_no_mutation_witness :
    (set_active "v2" true 7 ⟨[("v1", some 1)], none⟩).1.isSome = true ∧
    (set_active "v2" true 7 ⟨[("v1", some 1)], none⟩).2 =
      ⟨[("v1", some 1)], none⟩ :=
  set_active_not_installed_no_mutation "v2" true 7 ⟨[("v1", some 1)], none⟩ rfl

/-! ### C2 -/

/-- Counterexample to C2 as stated: when `fs::hard_link` fails and
`set_active` falls back to `fs::copy`, the activation call still succeeds,
but the copied link has a fresh inode (here 99) matching no installed
binary, so `list_installed` reports zero active tags — not exactly one. -/
theorem activation_copy_fallback_zero_active :
    (set_active "v1" false 99 ⟨[("v1", some 1)], none⟩).1 = none ∧
    (list_installed
        (set_active "v1" false 99 ⟨[("v1", some 1)], none⟩).2).filter
      (fun p => p.2) = [] := by
  exact ⟨rfl, rfl⟩

/-- C2 (amended): after `activate(T)` succeeds via the hard-link path, and
T's binary inode is shared by no other installed binary, `list_installed`
reports exactly one tag as active and it is T.  (When hard-linking fails
and the copy fallback runs, zero tags are reported active instead.) -/
theorem activation_identity_hard_link (tag : String) (fresh ino : Nat)
    (s : LinkState)
    (h1 : lookupTag s.toolchains tag = some (some ino))
    (h2 : s.toolchains.filter (fun p => isActiveEntry (some ino) p.2) =
      [(tag, some ino)]) :
    (set_active tag true fresh s).1 = none ∧
    (list_installed (set_active tag true fresh s).2).filter (fun p => p.2) =
      [(tag, true)] := by
  have hstep : set_active tag true fresh s =
      (none, { s with binLink := some ino }) := by
    unfold set_active
    rw [h1]
    rfl
  refine ⟨by rw [hstep], ?_⟩
  rw [hstep]
  show (s.toolchains.map
      (fun p => (p.1, isActiveEntry (some ino) p.2))).filter (fun p => p.2) =
    [(tag, true)]
  rw [List.filter_map]
  have hcomp : ((fun p : String × Bool => p.2) ∘
      (fun p : String × Option Nat => (p.1, isActiveEntry (some ino) p.2))) =
      fun p : String × Option Nat => isActiveEntry (some ino) p.2 := rfl
  rw [hcomp, h2]
  simp [isActiveEntry]

/-- Witness for C2 (amended): with two installed tags of distinct inodes and
a successful hard link, exactly "v2" is listed active. -/
theorem activation_identity_hard_link_witness :
    (set_active "v2" true 7
      ⟨[("v1", some 1), ("v2", some 2)], some 1⟩).1 = none ∧
    (list_installed
        (set_active "v2" true 7
          ⟨[("v1", some 1), ("v2", some 2)], some 1⟩).2).filter
      (fun p => p.2) = [("v2", true)] :=
  activation_identity_hard_link "v2" 7 2
    ⟨[("v1", some 1), ("v2", some 2)], some 1⟩ rfl rfl

/-! ### C1 -/

/-- Counterexample to C1 as stated: with a staged std directory already
present and a cached source tree lacking a `std` subdirectory, `bootstrap`
succeeds non-fatally with the warning, but the previously staged std
directory does NOT still exist with its prior contents — it has been
removed (the code deletes `~/.duck/std` before checking the source tree). -/
theorem bootstrap_missing_std_deletes_staged_counterexample :
    (⟨fun _ => some ⟨.missing, none⟩, fun _ => some (.dir []),
        none, some (.file "old")⟩ : DepState).globalStd = some (.file "old") ∧
    (install_dependencies ⟨fun _ => none, fun _ => none⟩ "v1"
        ⟨fun _ => some ⟨.missing, none⟩, fun _ => some (.dir []),
         none, some (.file "old")⟩).err = none ∧
    (install_dependencies ⟨fun _ => none, fun _ => none⟩ "v1"
        ⟨fun _ => some ⟨.missing, none⟩, fun _ => some (.dir []),
         none, some (.file "old")⟩).warnedStd = true ∧
    (install_dependencies ⟨fun _ => none, fun _ => none⟩ "v1"
        ⟨fun _ => some ⟨.missing, none⟩, fun _ => some (.dir []),
         none, some (.file "old")⟩).state.globalStd = none :=
  ⟨rfl, rfl, rfl, rfl⟩

/-- C1 (amended): when `bootstrap(tag)` finds no `std` subdirectory in the
cached source tree, it emits a non-fatal warning and the call still
succeeds, but the previously staged global standard-library directory is
removed rather than left untouched: after the call the staged std path is
absent. -/
theorem bootstrap_missing_std_warns_and_removes (net : DepNet)
    (tag : String) (s : DepState) (tree : SourceTree) (g : FTree)
    (hsrc : s.sourceCache tag = some tree)
    (hstd : tree.std = none)
    (hgo : s.goCache (get_go_version_from_disk tree.manifest) = some g) :
    install_dependencies net tag s =
      ⟨none, { s with globalGo := some g, globalStd := none }, 0, 0, true⟩ := by
  rw [install_dependencies_src_hit net tag s tree hsrc,
    installDepsFromSource_go_hit net s tree 0 g hgo]
  unfold install_dependencies.stageGlobals
  rw [hstd]

/-- Witness for C1 (amended): at the concrete state of the counterexample,
bootstrap returns success with the warning, stages the Go bundle, and
leaves the staged std path absent. -/
theorem bootstrap_missing_std_warns_and_removes_witness :
    install_dependencies ⟨fun _ => none, fun _ => none⟩ "v1"
        ⟨fun _ => some ⟨.missing, none⟩, fun _ => some (.dir []),
         none, some (.file "old")⟩ =
      ⟨none,
       { (⟨fun _ => some ⟨.missing, none⟩, fun _ => some (.dir []),
           none, some (.file "old")⟩ : DepState) with
         globalGo := some (.dir []), globalStd := none },
       0, 0, true⟩ :=
  bootstrap_missing_std_warns_and_removes ⟨fun _ => none, fun _ => none⟩
    "v1" _ ⟨.missing, none⟩ (.dir []) rfl rfl rfl

/-! ### C3 -/

/-- A successful `install_version` leaves a directory for the tag in the
store (either it was already there, or the install created it). -/
lemma install_version_ok_dir_exists (net : InstNet) (os arch tag : String)
    (s : InstState) (h : (install_version net os arch tag s).err = none) :
    ((install_version net os arch tag s).state.dirs tag).isSome = true := by
  unfold install_version at h ⊢
  cases hd : s.dirs tag with
  | some d => simp [hd]
  | none =>
    simp only [hd] at h ⊢
    cases hft : get_target_filename os arch with
    | error e => simp [hft] at h
    | ok target =>
      simp only [hft] at h ⊢
      cases hr : net.release tag with
      | none => simp [hr] at h
      | some release =>
        simp only [hr] at h ⊢
        cases ha : release.assets.find? (fun a => a.name == target) with
        | none => simp [ha] at h
        | some asset =>
          simp only [ha] at h ⊢
          cases hdl : net.download asset.browser_download_url with
          | none => simp [hdl] at h
          | some content => simp [hdl]

/-- C3: `install_version` is idempotent: when a directory for the tag
already exists in the toolchain store the call is a no-op with no network
request and a byte-identical store; consequently, after a first successful
call, the second call with the same tag issues zero network requests and
returns the store unchanged. -/
theorem install_version_idempotent (net : InstNet) (os arch tag : String)
    (s : InstState) :
    ((s.dirs tag).isSome = true →
      install_version net os arch tag s = ⟨none, s, 0⟩) ∧
    ((install_version net os arch tag s).err = none →
      install_version net os arch tag (install_version net os arch tag s).state =
        ⟨none, (install_version net os arch tag s).state, 0⟩) := by
  have hnoop : ∀ (s1 : InstState) (d : InstalledDir), s1.dirs tag = some d →
      install_version net os arch tag s1 = ⟨none, s1, 0⟩ := by
    intro s1 d hd
    unfold install_version
    rw [hd]
  constructor
  · intro h
    rcases Option.isSome_iff_exists.mp h with ⟨d, hd⟩
    exact hnoop s d hd
  · intro hok
    rcases Option.isSome_iff_exists.mp
      (install_version_ok_dir_exists net os arch tag s hok) with ⟨d, hd⟩
    exact hnoop _ d hd

/-- Witness for C3: a store that already has "v1" is returned untouched
with zero requests, and after a fresh successful install of "v1" the second
call is a request-free no-op. -/
theorem install_version_idempotent_witness :
    install_version
        ⟨fun _ => some ⟨"v1", [⟨"dargo-linux-x86_64", "u"⟩]⟩,
         fun _ => some "BYTES"⟩ "linux" "x86_64" "v1"
        ⟨fun _ => some ⟨"OLD", true⟩⟩ =
      ⟨none, ⟨fun _ => some ⟨"OLD", true⟩⟩, 0⟩ ∧
    install_version
        ⟨fun _ => some ⟨"v1", [⟨"dargo-linux-x86_64", "u"⟩]⟩,
         fun _ => some "BYTES"⟩ "linux" "x86_64" "v1"
        (install_version
          ⟨fun _ => some ⟨"v1", [⟨"dargo-linux-x86_64", "u"⟩]⟩,
           fun _ => some "BYTES"⟩ "linux" "x86_64" "v1"
          ⟨fun _ => none⟩).state =
      ⟨none,
       (install_version
          ⟨fun _ => some ⟨"v1", [⟨"dargo-linux-x86_64", "u"⟩]⟩,
           fun _ => some "BYTES"⟩ "linux" "x86_64" "v1"
          ⟨fun _ => none⟩).state, 0⟩ :=
  ⟨(install_version_idempotent
      ⟨fun _ => some ⟨"v1", [⟨"dargo-linux-x86_64", "u"⟩]⟩,
       fun _ => some "BYTES"⟩ "linux" "x86_64" "v1"
      ⟨fun _ => some ⟨"OLD", true⟩⟩).1 rfl,
   (install_version_idempotent
      ⟨fun _ => some ⟨"v1", [⟨"dargo-linux-x86_64", "u"⟩]⟩,
       fun _ => some "BYTES"⟩ "linux" "x86_64" "v1"
      ⟨fun _ => none⟩).2 rfl⟩

/-! ### C7 -/

/-- Bootstrapping with the needed Go bundle already cached completes
without invoking the Go downloader. -/
lemma install_dependencies_go_hit_general (net : DepNet) (tag : String)
    (s : DepState) (tree : SourceTree) (g : FTree)
    (hsrc : sourceTreeFor net s tag = some tree)
    (hgo : s.goCache (get_go_version_from_disk tree.manifest) = some g) :
    (install_dependencies net tag s).err = none ∧
    (install_dependencies net tag s).goDownloads = 0 := by
  unfold sourceTreeFor at hsrc
  cases hc : s.sourceCache tag with
  | some t0 =>
    rw [hc] at hsrc
    obtain rfl : t0 = tree := by injection hsrc
    rw [install_dependencies_src_hit net tag s t0 hc,
      installDepsFromSource_go_hit net s t0 0 g hgo]
    exact ⟨(stageGlobals_spec _ _ _ _ _).1, (stageGlobals_spec _ _ _ _ _).2.2.1⟩
  | none =>
    rw [hc] at hsrc
    rw [install_dependencies_src_miss net tag s tree hc hsrc,
      installDepsFromSource_go_hit net
        { s with sourceCache := fun k => if k = tag then some tree else s.sourceCache k }
        tree 1 g hgo]
    exact ⟨(stageGlobals_spec _ _ _ _ _).1, (stageGlobals_spec _ _ _ _ _).2.2.1⟩

/-- Bootstrapping with the needed Go bundle absent invokes the Go
downloader exactly once and leaves the bundle cached. -/
lemma install_dependencies_go_miss_general (net : DepNet) (tag : String)
    (s : DepState) (tree : SourceTree) (g : FTree)
    (hsrc : sourceTreeFor net s tag = some tree)
    (hmiss : s.goCache (get_go_version_from_disk tree.manifest) = none)
    (hdl : net.go (get_go_version_from_disk tree.manifest) = some g) :
    (install_dependencies net tag s).err = none ∧
    (install_dependencies net tag s).goDownloads = 1 ∧
    (install_dependencies net tag s).state.goCache
      (get_go_version_from_disk tree.manifest) = some g := by
  unfold sourceTreeFor at hsrc
  cases hc : s.sourceCache tag with
  | some t0 =>
    rw [hc] at hsrc
    obtain rfl : t0 = tree := by injection hsrc
    rw [install_dependencies_src_hit net tag s t0 hc,
      installDepsFromSource_go_miss net s t0 0 g hmiss hdl]
    refine ⟨(stageGlobals_spec _ _ _ _ _).1, (stageGlobals_spec _ _ _ _ _).2.2.1, ?_⟩
    rw [(stageGlobals_spec _ _ _ _ _).2.2.2.2.1]
    simp
  | none =>
    rw [hc] at hsrc
    rw [install_dependencies_src_miss net tag s tree hc hsrc,
      installDepsFromSource_go_miss net
        { s with sourceCache := fun k => if k = tag then some tree else s.sourceCache k }
        tree 1 g hmiss hdl]
    refine ⟨(stageGlobals_spec _ _ _ _ _).1, (stageGlobals_spec _ _ _ _ _).2.2.1, ?_⟩
    rw [(stageGlobals_spec _ _ _ _ _).2.2.2.2.1]
    simp

/-- C7: the cache's ensure step skips its producer when the directory for
the key already exists (for both the source and the Go-bundle kinds), and
consequently two bootstrap calls for tags whose source trees require the
same Go version perform the Go-bundle download exactly once (on the first
call). -/
theorem bootstrap_shared_go_download_once (net : DepNet) :
    (∀ tag s tree g,
      s.sourceCache tag = some tree →
      s.goCache (get_go_version_from_disk tree.manifest) = some g →
      (install_dependencies net tag s).srcDownloads = 0 ∧
      (install_dependencies net tag s).goDownloads = 0) ∧
    (∀ t1 t2 s v tree1 tree2 g,
      sourceTreeFor net s t1 = some tree1 →
      get_go_version_from_disk tree1.manifest = v →
      s.goCache v = none →
      net.go v = some g →
      sourceTreeFor net (install_dependencies net t1 s).state t2 = some tree2 →
      get_go_version_from_disk tree2.manifest = v →
      (install_dependencies net t1 s).err = none ∧
      (install_dependencies net t1 s).goDownloads = 1 ∧
      (install_dependencies net t2
        (install_dependencies net t1 s).state).err = none ∧
      (install_dependencies net t2
        (install_dependencies net t1 s).state).goDownloads = 0) := by
  constructor
  · intro tag s tree g hc hgo
    rw [install_dependencies_src_hit net tag s tree hc,
      installDepsFromSource_go_hit net s tree 0 g hgo]
    exact ⟨(stageGlobals_spec _ _ _ _ _).2.1, (stageGlobals_spec _ _ _ _ _).2.2.1⟩
  · intro t1 t2 s v tree1 tree2 g h1 hv1 hmiss hdl h2 hv2
    subst hv1
    obtain ⟨e1, d1, hc1⟩ :=
      install_dependencies_go_miss_general net t1 s tree1 g h1 hmiss hdl
    have hhit := install_dependencies_go_hit_general net t2
      (install_dependencies net t1 s).state tree2 g h2 (by rw [hv2]; exact hc1)
    exact ⟨e1, d1, hhit.1, hhit.2⟩

/-- Witness for C7: with tag "t1" uncached, "t2" cached, both requiring Go
version "1.25.0", and an empty Go cache, the first bootstrap downloads the
bundle once and the second downloads nothing. -/
theorem bootstrap_shared_go_download_once_witness :
    (install_dependencies
        ⟨fun _ => some ⟨.parsed ⟨"1.25.0"⟩, none⟩, fun _ => some (.dir [])⟩
        "t1"
        ⟨fun _ => none, fun _ => none, none, none⟩).goDownloads = 1 ∧
    (install_dependencies
        ⟨fun _ => some ⟨.parsed ⟨"1.25.0"⟩, none⟩, fun _ => some (.dir [])⟩
        "t2"
        (install_dependencies
          ⟨fun _ => some ⟨.parsed ⟨"1.25.0"⟩, none⟩, fun _ => some (.dir [])⟩
          "t1"
          ⟨fun _ => none, fun _ => none, none, none⟩).state).goDownloads = 0 := by
  have h := (bootstrap_shared_go_download_once
      ⟨fun _ => some ⟨.parsed ⟨"1.25.0"⟩, none⟩, fun _ => some (.dir [])⟩).2
    "t1" "t2" ⟨fun _ => none, fun _ => none, none, none⟩ "1.25.0"
    ⟨.parsed ⟨"1.25.0"⟩, none⟩ ⟨.parsed ⟨"1.25.0"⟩, none⟩ (.dir [])
    rfl rfl rfl rfl rfl rfl
  exact ⟨h.2.1, h.2.2.2⟩

/-! ### C10 -/

/-- C10: in the `use` subcommand the active link is switched before
dependency bootstrapping runs; if bootstrapping then fails (here: the
source download fails), the command aborts with the active link already
pointing at the newly selected tag's binary while the bootstrapping state
(caches and global staging) is whatever it was before — no rollback of the
switch occurs. -/
theorem use_switches_link_before_bootstrap (net : DepNet) (linkOk : Bool)
    (fresh : Nat) (tag : String) (w : World) (ino : Nat)
    (hinst : (lookupTag w.link.toolchains tag).bind id = some ino)
    (hsrc : w.deps.sourceCache tag = none)
    (hnet : net.source tag = none) :
    (useCommand net linkOk fresh tag w).1.isSome = true ∧
    (useCommand net linkOk fresh tag w).2.link =
      { w.link with binLink := some (if linkOk then ino else fresh) } ∧
    (useCommand net linkOk fresh tag w).2.deps = w.deps := by
  have hact : set_active tag linkOk fresh w.link =
      (none, { w.link with binLink := some (if linkOk then ino else fresh) }) := by
    unfold set_active
    rw [hinst]
  have hdep := install_dependencies_src_fail net tag w.deps hsrc hnet
  unfold useCommand
  rw [hact]
  simp [hdep]

/-- Witness for C10: with "v1" installed, no cached source and a failing
source download, `use v1` aborts, the active link points at "v1"'s binary
(inode 1) and the staging state is untouched. -/
theorem use_switches_link_before_bootstrap_witness :
    (useCommand ⟨fun _ => none, fun _ => none⟩ true 7 "v1"
        ⟨⟨[("v1", some 1)], none⟩,
         ⟨fun _ => none, fun _ => none, none, some (.file "oldstd")⟩⟩).1.isSome
      = true ∧
    (useCommand ⟨fun _ => none, fun _ => none⟩ true 7 "v1"
        ⟨⟨[("v1", some 1)], none⟩,
         ⟨fun _ => none, fun _ => none, none, some (.file "oldstd")⟩⟩).2.link =
      { (⟨[("v1", some 1)], none⟩ : LinkState) with
        binLink := some (if true then 1 else 7) } ∧
    (useCommand ⟨fun _ => none, fun _ => none⟩ true 7 "v1"
        ⟨⟨[("v1", some 1)], none⟩,
         ⟨fun _ => none, fun _ => none, none, some (.file "oldstd")⟩⟩).2.deps =
      ⟨fun _ => none, fun _ => none, none, some (.file "oldstd")⟩ :=
  use_switches_link_before_bootstrap ⟨fun _ => none, fun _ => none⟩ true 7
    "v1"
    ⟨⟨[("v1", some 1)], none⟩,
     ⟨fun _ => none, fun _ => none, none, some (.file "oldstd")⟩⟩ 1
    rfl rfl rfl

/-! ### C8 -/

/-- The final snapshot of a fallback copy is the full tree. -/
lemma copySnapshots_getLast (t : FTree) :
    (copySnapshots t).getLast? = some t := by
  cases t with
  | file c => rfl
  | dir es =>
    show ((List.range (es.length + 1)).map
        fun k => FTree.dir (es.take k)).getLast? = some (.dir es)
    rw [List.getLast?_map, List.range_succ, List.getLast?_concat]
    simp

/-- Counterexample to C8 as stated: in the rename-failure fallback the
recursive copy makes the canonical path visible as an empty directory
before the entries arrive — a visible state that is not the populated
tree, so population is not a single move in every execution. -/
theorem cache_copy_fallback_incomplete_dir_visible :
    some (FTree.dir []) ∈
      destStates false (.dir [("std", .file "s"), ("docs", .file "d")]) ∧
    FTree.dir [] ≠ FTree.dir [("std", .file "s"), ("docs", .file "d")] := by
  constructor
  · show some (FTree.dir []) ∈
      [none, some (.dir []), some (.dir [("std", .file "s")]),
       some (.dir [("std", .file "s"), ("docs", .file "d")])]
    exact List.mem_cons_of_mem _ (List.mem_cons_self _ _)
  · simp

/-- C8 (amended): the producer populates a scratch location, and when the
subsequent rename succeeds the populated tree becomes visible at the
canonical path in a single move; in the rename-failure fallback the copy
eventually makes the full tree visible, but a partially populated directory
can be visible at the canonical path in the interim. -/
theorem cache_population_single_move_on_rename (t : FTree) :
    destStates true t = [none, some t] ∧
    (destStates false t).getLast? = some (some t) ∧
    (∃ u st, some st ∈ destStates false u ∧ st ≠ u) := by
  refine ⟨rfl, ?_, ?_⟩
  · have h2 : ((copySnapshots t).map some).getLast? = some (some t) := by
      rw [List.getLast?_map, copySnapshots_getLast]
      rfl
    have h3 : some t ∈ ((none : Option FTree) ::
        (copySnapshots t).map some).getLast? :=
      List.mem_getLast?_cons (Option.mem_def.mpr h2)
    exact Option.mem_def.mp h3
  · refine ⟨.dir [("std", .file "s")], .dir [], ?_, by simp⟩
    show some (FTree.dir []) ∈
      [none, some (.dir []), some (.dir [("std", .file "s")])]
    exact List.mem_cons_of_mem _ (List.mem_cons_self _ _)

end Duckup
